import Mathlib

/-!
Verification of the minicup match-state engine
(`minicup_administration/core/models/core.py`): the `Match.change_state`
finite-state transition operation, the `Match.serialize` and
`MatchEvent.serialize` snapshot projections, and the `Match.teams` pair.

The Django model records are embedded as plain structures; datetimes are
embedded as their epoch seconds (an `Option Int`, `none` when the column is
NULL), since the code only tests their truthiness and calls `.timestamp()`.
Database `save`/`refresh_from_db` round-trips are embedded as explicit state
passing: `change_state` receives the freshly read record and returns the
record as the call leaves it.
-/

namespace Minicup

/-- Match.STATE_INIT -/
abbrev STATE_INIT : String := "init"

/-- Match.STATE_HALF_FIRST -/
abbrev STATE_HALF_FIRST : String := "half_first"

/-- Match.STATE_HALF_PAUSE; note the source string is "pause". -/
abbrev STATE_HALF_PAUSE : String := "pause"

/-- Match.STATE_HALF_SECOND -/
abbrev STATE_HALF_SECOND : String := "half_second"

/-- Match.STATE_END -/
abbrev STATE_END : String := "end"

/-- Match.STATES: the transition table, each state mapped to the tuple of
states reachable from it. -/
def STATES : List (String × List String) :=
  [(STATE_INIT, [STATE_HALF_FIRST]),
   (STATE_HALF_FIRST, [STATE_HALF_PAUSE]),
   (STATE_HALF_PAUSE, [STATE_HALF_SECOND]),
   (STATE_HALF_SECOND, [STATE_END]),
   (STATE_END, [])]

/-- Match.DEFAULT_STATES = (STATE_INIT, STATE_END), indexed by
bool(match.confirmed). -/
def DEFAULT_STATES : String × String := (STATE_INIT, STATE_END)

/-- Match.HALF_LENGTH = timedelta(minutes=10), as total seconds. -/
def HALF_LENGTH : Int := 600

/-- MatchEvent.TYPE_START -/
abbrev TYPE_START : String := "start"

/-- MatchEvent.TYPE_GOAL -/
abbrev TYPE_GOAL : String := "goal"

/-- MatchEvent.TYPE_END -/
abbrev TYPE_END : String := "end"

/-- MatchEvent.TYPE_INFO -/
abbrev TYPE_INFO : String := "info"

/-- `isLeadingSeq need hay`: the chars of `need` begin `hay`. -/
def isLeadingSeq : List Char → List Char → Bool
  | [], _ => true
  | _ :: _, [] => false
  | a :: as, b :: bs => (a == b) && isLeadingSeq as bs

/-- Python substring containment on char lists: `isSubstr need hay` is the
Python expression `need in hay` for strings. -/
def isSubstr : List Char → List Char → Bool
  | need, [] => need.isEmpty
  | need, c :: rest => isLeadingSeq need (c :: rest) || isSubstr need rest

/-- Python `need in hay` for strings: substring containment. -/
def pyInStr (need hay : String) : Bool :=
  isSubstr need.toList hay.toList

/-- Python `a or b` for strings: `b` when `a` is falsy (empty), else `a`. -/
def pyStrOr (a b : String) : String :=
  if a = "" then b else a

/-- Python `a or b` for an optional integer `a`: `b` when `a` is None or 0. -/
def pyOrInt (a : Option Int) (b : Int) : Int :=
  match a with
  | none => b
  | some n => if n = 0 then b else n

/-- Row of the `category` table (the fields the serializer reads). -/
structure Category where
  id : Int
  name : String
deriving DecidableEq, Repr

/-- Row of the `team_info` table (the fields the serializer reads).
`dress_color` is a nullable column; `dress_color_secondary` is non-null and
may be the empty string. -/
structure TeamInfo where
  id : Int
  name : String
  dress_color : Option String
  dress_color_secondary : String
deriving DecidableEq, Repr

/-- Row of the `player` table (the fields the event serializer reads). -/
structure Player where
  id : Int
  name : String
  surname : String
  number : Int
deriving DecidableEq, Repr

/-- Row of the `match` table. Foreign keys to team_info and category are
embedded as the referenced rows; `match_term` as its raw id. `online_state`
is a non-null CharField where the empty string means unset. -/
structure Match where
  id : Int
  match_term : Option Int
  category : Category
  home_team_info : TeamInfo
  away_team_info : TeamInfo
  score_home : Option Int
  score_away : Option Int
  confirmed : Option Int
  confirmed_as : Option Int
  online_state : String
  first_half_start : Option Int
  second_half_start : Option Int
  facebook_video_id : Option String
deriving DecidableEq, Repr

/-- Row of the `match_event` table. `id` is `none` before the row is saved,
mirroring an unsaved Django instance. The owning match foreign key is the
`match_` field (`match` is reserved in Lean). -/
structure MatchEvent where
  id : Option Int
  match_ : Match
  score_home : Option Int
  score_away : Option Int
  message : Option String
  type : Option String
  half_index : Int
  time_offset : Int
  player : Option Player
  team_info : Option TeamInfo
deriving DecidableEq, Repr

/-- JSON-ish values appearing in the serialized snapshots. The two-element
`score` list is embedded as `pair`; integral floats (timestamps,
half_length) as `int`. -/
inductive Value where
  | null : Value
  | int : Int → Value
  | str : String → Value
  | pair : Value → Value → Value
deriving DecidableEq, Repr

/-- None ↦ null, some n ↦ n. -/
def Value.ofOptionInt : Option Int → Value
  | none => Value.null
  | some n => Value.int n

/-- None ↦ null, some s ↦ s. -/
def Value.ofOptionStr : Option String → Value
  | none => Value.null
  | some s => Value.str s

/-- `DEFAULT_STATES[bool(self.confirmed)]`: the default state string chosen
by whether the match is confirmed. -/
def defaultStateFor (confirmed : Option Int) : String :=
  if confirmed.isSome then DEFAULT_STATES.2 else DEFAULT_STATES.1

/-- `new_state in self.STATES`: the requested state is a key of the
transition table. -/
def stateIsKnown (s : String) : Bool :=
  (STATES.lookup s).isSome

/-- `new_state in self.STATES.get(self.online_state, self.DEFAULT_STATES[bool(self.confirmed)])`.
When `online_state` is a key of STATES the default is a tuple of successor
states and `in` is tuple membership; otherwise the `.get` default is a
single state STRING, so Python `in` is substring containment in it. -/
def transitionAllowed (m : Match) (s : String) : Bool :=
  match STATES.lookup m.online_state with
  | some succs => succs.contains s
  | none => pyInStr s (defaultStateFor m.confirmed)

/-- Outcome of `Match.change_state`: `rejected m` embeds `return None` with
the match as the call leaves it, `ok m e` embeds returning the saved event
with the persisted match, `fault m` embeds the `RuntimeError` raise (the
match had already been persisted with the new state when it is raised). -/
inductive ChangeStateResult where
  | rejected : Match → ChangeStateResult
  | ok : Match → MatchEvent → ChangeStateResult
  | fault : Match → ChangeStateResult
deriving DecidableEq, Repr

/-- `MatchEvent(match=self)` followed by assigning type, half_index and
time_offset; every other column is left at its null/unsaved default. -/
def mkStateEvent (m : Match) (ty : String) (hi off : Int) : MatchEvent :=
  { id := none, match_ := m, score_home := none, score_away := none,
    message := none, type := some ty, half_index := hi, time_offset := off,
    player := none, team_info := none }

/-- Match.change_state. The source first refreshes the record from the
database (embedded: `m` is the fresh record), rejects unknown and
disallowed targets returning None, otherwise persists
`online_state = new_state`, then synthesizes the event from the previous
state, raising RuntimeError when the previous state matches no branch.
The source binds `old_state = self.online_state` before assigning and saving
`self.online_state = new_state`; here the pre-update record `m` stays in
scope, so `m.online_state` below is that `old_state` and
`{ m with online_state := new_state }` is the persisted record. -/
def Match.change_state (m : Match) (new_state : String) : ChangeStateResult :=
  if ¬ stateIsKnown new_state then ChangeStateResult.rejected m
  else if ¬ transitionAllowed m new_state then ChangeStateResult.rejected m
  else if m.online_state = "" ∨ m.online_state = STATE_INIT then
    ChangeStateResult.ok { m with online_state := new_state }
      (mkStateEvent { m with online_state := new_state } TYPE_START 0 0)
  else if m.online_state = STATE_HALF_FIRST then
    ChangeStateResult.ok { m with online_state := new_state }
      (mkStateEvent { m with online_state := new_state } TYPE_END 0 HALF_LENGTH)
  else if m.online_state = STATE_HALF_PAUSE then
    ChangeStateResult.ok { m with online_state := new_state }
      (mkStateEvent { m with online_state := new_state } TYPE_START 1 0)
  else if m.online_state = STATE_HALF_SECOND then
    ChangeStateResult.ok { m with online_state := new_state }
      (mkStateEvent { m with online_state := new_state } TYPE_END 1 HALF_LENGTH)
  else
    ChangeStateResult.fault { m with online_state := new_state }

/-- The inner `format_color` of Match.serialize: when the secondary dress
color is truthy (non-empty) format "primary / secondary" (a null primary
renders as the string None, as Python str.format does), else return the
primary color as is (possibly null). -/
def format_color (team : TeamInfo) : Option String :=
  if team.dress_color_secondary ≠ "" then
    some ((match team.dress_color with
           | some c => c
           | none => "None") ++ " / " ++ team.dress_color_secondary)
  else team.dress_color

/-- The keyword entries of the dict literal built by Match.serialize, in
source order. -/
def Match.fixedSnapshot (m : Match) : List (String × Value) :=
  [("id", Value.int m.id),
   ("home_team_name", Value.str m.home_team_info.name),
   ("home_team_id", Value.int m.home_team_info.id),
   ("away_team_name", Value.str m.away_team_info.name),
   ("away_team_id", Value.int m.away_team_info.id),
   ("home_team_color", Value.str "#ff8574"),
   ("away_team_color", Value.str "#88dd12"),
   ("home_team_color_name", Value.ofOptionStr (format_color m.home_team_info)),
   ("away_team_color_name", Value.ofOptionStr (format_color m.away_team_info)),
   ("category_name", Value.str m.category.name),
   ("first_half_start", Value.ofOptionInt m.first_half_start),
   ("second_half_start", Value.ofOptionInt m.second_half_start),
   ("score", Value.pair (Value.ofOptionInt m.score_home) (Value.ofOptionInt m.score_away)),
   ("confirmed", Value.ofOptionInt m.confirmed),
   ("half_length", Value.int HALF_LENGTH),
   ("state", Value.str (pyStrOr m.online_state (if m.confirmed.isSome then STATE_END else STATE_INIT))),
   ("facebook_video_id", Value.ofOptionStr m.facebook_video_id)]

/-- The fixed keys of the match snapshot, in source order. -/
def matchSnapshotKeys : List String :=
  ["id", "home_team_name", "home_team_id", "away_team_name", "away_team_id",
   "home_team_color", "away_team_color", "home_team_color_name",
   "away_team_color_name", "category_name", "first_half_start",
   "second_half_start", "score", "confirmed", "half_length", "state",
   "facebook_video_id"]

/-- Match.serialize(**kwargs): `dict(id=..., ..., **kwargs)`. A kwargs key
colliding with one of the explicit keyword entries makes the dict call
raise TypeError (multiple values for a keyword argument), embedded as the
error case; otherwise the entries are the fixed ones followed by kwargs. -/
def Match.serialize (m : Match) (kwargs : List (String × Value)) :
    Except String (List (String × Value)) :=
  if kwargs.any (fun kv => (m.fixedSnapshot.map Prod.fst).contains kv.1) then
    Except.error "TypeError: got multiple values for keyword argument"
  else
    Except.ok (m.fixedSnapshot ++ kwargs)

/-- Match.teams: the (home, away) pair. -/
def Match.teams (m : Match) : TeamInfo × TeamInfo :=
  (m.home_team_info, m.away_team_info)

/-- `self.match.teams.index(self.team_info)` with the ValueError handler:
first index whose element equals the event's team (Django model equality is
primary-key equality), `-1` when the team is unset or matches neither. -/
def tupleIndexTeam (teams : TeamInfo × TeamInfo) (t : Option TeamInfo) : Int :=
  match t with
  | none => -1
  | some ti =>
    if ti.id = teams.1.id then 0
    else if ti.id = teams.2.id then 1
    else -1

/-- MatchEvent.score: `(self.score_home or 0, self.score_away or 0)`. -/
def MatchEvent.score (e : MatchEvent) : Int × Int :=
  (pyOrInt e.score_home 0, pyOrInt e.score_away 0)

/-- MatchEvent.serialize: the dict literal, in source order. -/
def MatchEvent.serialize (e : MatchEvent) : List (String × Value) :=
  [("id", Value.ofOptionInt e.id),
   ("time_offset", Value.int e.time_offset),
   ("half_index", Value.int e.half_index),
   ("message", Value.ofOptionStr e.message),
   ("score", Value.pair (Value.int e.score.1) (Value.int e.score.2)),
   ("type", Value.ofOptionStr e.type),
   ("team_index", Value.int (tupleIndexTeam e.match_.teams e.team_info)),
   ("player_name", match e.player with
                   | some p => Value.str (p.name ++ " " ++ p.surname)
                   | none => Value.null),
   ("player_number", match e.player with
                     | some p => Value.int p.number
                     | none => Value.null)]

/-- A concrete home team row for concrete-instance checks. -/
def sampleHome : TeamInfo :=
  { id := 1, name := "Lions", dress_color := some "red", dress_color_secondary := "" }

/-- A concrete away team row for concrete-instance checks. -/
def sampleAway : TeamInfo :=
  { id := 2, name := "Tigers", dress_color := some "blue", dress_color_secondary := "" }

/-- A concrete category row for concrete-instance checks. -/
def sampleCategory : Category :=
  { id := 7, name := "U11" }

/-- A concrete match with unset online_state and no confirmation. -/
def freshMatch : Match :=
  { id := 42, match_term := none, category := sampleCategory,
    home_team_info := sampleHome, away_team_info := sampleAway,
    score_home := none, score_away := none, confirmed := none,
    confirmed_as := none, online_state := "",
    first_half_start := none, second_half_start := none,
    facebook_video_id := none }

/-- A concrete match with unset online_state that has been confirmed. -/
def confirmedMatch : Match :=
  { freshMatch with confirmed := some 1500000000 }

/-- A concrete match whose online_state is explicitly the init state. -/
def initMatch : Match :=
  { freshMatch with online_state := STATE_INIT }

/-- A concrete match whose stored online_state is a corrupted value outside
the transition table. -/
def corruptMatch : Match :=
  { freshMatch with online_state := "garbage" }

/-- A concrete match whose online_state is the half_first state. -/
def halfFirstMatch : Match :=
  { freshMatch with online_state := STATE_HALF_FIRST }

/-- A concrete confirmed match whose online_state is the end state. -/
def endConfirmedMatch : Match :=
  { confirmedMatch with online_state := STATE_END }

/-- A concrete goal event whose team reference is the away team of its
owning match. -/
def sampleAwayEvent : MatchEvent :=
  { id := some 5, match_ := freshMatch, score_home := some 1,
    score_away := some 2, message := none, type := some TYPE_GOAL,
    half_index := 0, time_offset := 30, player := none,
    team_info := some sampleAway }

/-- The property C1 is amended to: from the init state, the four successive
correct calls are all accepted, thread through half_first, pause,
half_second to end, produce exactly the events (start,0,0), (end,0,600),
(start,1,0), (end,1,600) keyed off the previous state, and from the end
state every further request is rejected. -/
def chainSpec (m : Match) : Prop :=
  m.change_state STATE_HALF_FIRST =
    ChangeStateResult.ok { m with online_state := STATE_HALF_FIRST }
      (mkStateEvent { m with online_state := STATE_HALF_FIRST } TYPE_START 0 0) ∧
  ({ m with online_state := STATE_HALF_FIRST } : Match).change_state STATE_HALF_PAUSE =
    ChangeStateResult.ok { m with online_state := STATE_HALF_PAUSE }
      (mkStateEvent { m with online_state := STATE_HALF_PAUSE } TYPE_END 0 HALF_LENGTH) ∧
  ({ m with online_state := STATE_HALF_PAUSE } : Match).change_state STATE_HALF_SECOND =
    ChangeStateResult.ok { m with online_state := STATE_HALF_SECOND }
      (mkStateEvent { m with online_state := STATE_HALF_SECOND } TYPE_START 1 0) ∧
  ({ m with online_state := STATE_HALF_SECOND } : Match).change_state STATE_END =
    ChangeStateResult.ok { m with online_state := STATE_END }
      (mkStateEvent { m with online_state := STATE_END } TYPE_END 1 HALF_LENGTH) ∧
  ∀ s : String, ({ m with online_state := STATE_END } : Match).change_state s =
    ChangeStateResult.rejected { m with online_state := STATE_END }


/-- A string different from all five table keys has no entry in STATES. -/
theorem lookup_STATES_of_ne (s : String) (h1 : s ≠ STATE_INIT)
    (h2 : s ≠ STATE_HALF_FIRST) (h3 : s ≠ STATE_HALF_PAUSE)
    (h4 : s ≠ STATE_HALF_SECOND) (h5 : s ≠ STATE_END) :
    STATES.lookup s = none := by
  simp [STATES, List.lookup, beq_false_of_ne h1, beq_false_of_ne h2,
        beq_false_of_ne h3, beq_false_of_ne h4, beq_false_of_ne h5]

/-- A recognized state is one of the five table keys. -/
theorem stateIsKnown_cases (s : String) (hk : stateIsKnown s = true) :
    s = STATE_INIT ∨ s = STATE_HALF_FIRST ∨ s = STATE_HALF_PAUSE ∨
    s = STATE_HALF_SECOND ∨ s = STATE_END := by
  by_contra hcon
  push_neg at hcon
  obtain ⟨h1, h2, h3, h4, h5⟩ := hcon
  rw [stateIsKnown, lookup_STATES_of_ne s h1 h2 h3 h4 h5] at hk
  simp at hk

/-- From stored state init, requesting half_first is accepted and creates
the (start, 0, 0) event. -/
theorem step_from_init (m : Match) (h : m.online_state = STATE_INIT) :
    m.change_state STATE_HALF_FIRST =
      ChangeStateResult.ok { m with online_state := STATE_HALF_FIRST }
        (mkStateEvent { m with online_state := STATE_HALF_FIRST } TYPE_START 0 0) := by
  have ha : transitionAllowed m STATE_HALF_FIRST = true := by
    unfold transitionAllowed
    rw [h]
    rfl
  have hk : stateIsKnown STATE_HALF_FIRST = true := rfl
  simp [Match.change_state, hk, ha, h]

/-- From stored state half_first, requesting the pause state is accepted
and creates the (end, 0, 600) event. -/
theorem step_from_half_first (m : Match) (h : m.online_state = STATE_HALF_FIRST) :
    m.change_state STATE_HALF_PAUSE =
      ChangeStateResult.ok { m with online_state := STATE_HALF_PAUSE }
        (mkStateEvent { m with online_state := STATE_HALF_PAUSE } TYPE_END 0 HALF_LENGTH) := by
  have ha : transitionAllowed m STATE_HALF_PAUSE = true := by
    unfold transitionAllowed
    rw [h]
    rfl
  have hk : stateIsKnown STATE_HALF_PAUSE = true := rfl
  simp [Match.change_state, hk, ha, h, STATE_HALF_FIRST, STATE_INIT]

/-- From the stored pause state, requesting half_second is accepted and
creates the (start, 1, 0) event. -/
theorem step_from_pause (m : Match) (h : m.online_state = STATE_HALF_PAUSE) :
    m.change_state STATE_HALF_SECOND =
      ChangeStateResult.ok { m with online_state := STATE_HALF_SECOND }
        (mkStateEvent { m with online_state := STATE_HALF_SECOND } TYPE_START 1 0) := by
  have ha : transitionAllowed m STATE_HALF_SECOND = true := by
    unfold transitionAllowed
    rw [h]
    rfl
  have hk : stateIsKnown STATE_HALF_SECOND = true := rfl
  simp [Match.change_state, hk, ha, h, STATE_HALF_PAUSE, STATE_HALF_FIRST, STATE_INIT]

/-- From stored state half_second, requesting end is accepted and creates
the (end, 1, 600) event. -/
theorem step_from_half_second (m : Match) (h : m.online_state = STATE_HALF_SECOND) :
    m.change_state STATE_END =
      ChangeStateResult.ok { m with online_state := STATE_END }
        (mkStateEvent { m with online_state := STATE_END } TYPE_END 1 HALF_LENGTH) := by
  have ha : transitionAllowed m STATE_END = true := by
    unfold transitionAllowed
    rw [h]
    rfl
  have hk : stateIsKnown STATE_END = true := rfl
  simp [Match.change_state, hk, ha, h, STATE_HALF_SECOND, STATE_HALF_PAUSE, STATE_HALF_FIRST,
        STATE_INIT]

/-- From stored state end, every request is rejected with the match
untouched. -/
theorem end_rejects_all (m : Match) (h : m.online_state = STATE_END) (s : String) :
    m.change_state s = ChangeStateResult.rejected m := by
  have ha : transitionAllowed m s = false := by
    unfold transitionAllowed
    rw [h]
    rfl
  by_cases hk : stateIsKnown s = true
  · simp [Match.change_state, hk, ha]
  · rw [Bool.not_eq_true] at hk
    simp [Match.change_state, hk]

/-- With an unset online_state, change_state accepts a requested state
exactly when it is a recognized state and a Python substring of the
default-state string, and then synthesizes the first-half kickoff event. -/
theorem change_state_unset (m : Match) (s : String) (h1 : m.online_state = "") :
    m.change_state s =
      if (stateIsKnown s && pyInStr s (defaultStateFor m.confirmed)) = true then
        ChangeStateResult.ok { m with online_state := s }
          (mkStateEvent { m with online_state := s } TYPE_START 0 0)
      else ChangeStateResult.rejected m := by
  have ha : transitionAllowed m s = pyInStr s (defaultStateFor m.confirmed) := by
    unfold transitionAllowed
    rw [h1]
    rfl
  by_cases hk : stateIsKnown s = true
  · by_cases hp : pyInStr s (defaultStateFor m.confirmed) = true
    · simp [Match.change_state, hk, ha, hp, h1]
    · rw [Bool.not_eq_true] at hp
      simp [Match.change_state, hk, ha, hp]
  · rw [Bool.not_eq_true] at hk
    simp [Match.change_state, hk]

/-- A recognized state other than init is not a substring of "init". -/
theorem known_not_substr_init (s : String) (hk : stateIsKnown s = true)
    (hs : s ≠ STATE_INIT) : pyInStr s STATE_INIT = false := by
  rcases stateIsKnown_cases s hk with h | h | h | h | h
  · exact absurd h hs
  · subst h; decide
  · subst h; decide
  · subst h; decide
  · subst h; decide

/-- A recognized state other than end is not a substring of "end". -/
theorem known_not_substr_end (s : String) (hk : stateIsKnown s = true)
    (hs : s ≠ STATE_END) : pyInStr s STATE_END = false := by
  rcases stateIsKnown_cases s hk with h | h | h | h | h
  · subst h; decide
  · subst h; decide
  · subst h; decide
  · subst h; decide
  · exact absurd h hs

/-- C1 counterexample: the claim quantifies over every match, but for a
match whose online_state is unset (effective state init, unconfirmed), the
correct next state half_first is rejected, so the chain is never driven. -/
theorem c1_counterexample :
    freshMatch.online_state = "" ∧ freshMatch.confirmed = none ∧
    freshMatch.change_state STATE_HALF_FIRST = ChangeStateResult.rejected freshMatch :=
  ⟨rfl, rfl, by decide⟩

/-- C1 (amended): for every match whose stored online_state is the init
state, the four successive correct calls are accepted, drive
half_first, pause, half_second, end, and produce exactly the events
(start,0,0), (end,0,600), (start,1,0), (end,1,600) keyed off the previous
state; after reaching end every further request is rejected. -/
theorem c1_chain_from_init (m : Match) (h : m.online_state = STATE_INIT) :
    chainSpec m := by
  refine ⟨step_from_init m h, step_from_half_first _ rfl, step_from_pause _ rfl,
    step_from_half_second _ rfl, fun s => end_rejects_all _ rfl s⟩

/-- C1 witness: the chain at a concrete match stored in the init state. -/
theorem c1_witness : initMatch.online_state = STATE_INIT ∧ chainSpec initMatch :=
  ⟨rfl, c1_chain_from_init initMatch rfl⟩

/-- C2 counterexample: a match with no online_state and no confirmation
rejects half_first (the claim says it is the unique accepted target) and
instead accepts init. -/
theorem c2_counterexample :
    freshMatch.change_state STATE_HALF_FIRST = ChangeStateResult.rejected freshMatch ∧
    freshMatch.change_state STATE_INIT =
      ChangeStateResult.ok initMatch (mkStateEvent initMatch TYPE_START 0 0) := by
  constructor
  · decide
  · decide

/-- C2 (amended): for every match whose online_state is empty and whose
confirmation timestamp is absent, change_state accepts exactly one
requested target, init (the derived default state itself, because the
validation fallback tests substring membership of the requested state in
the single default-state string), persisting online_state = init and
creating the (start,0,0) event; every other requested target is rejected
without mutation. -/
theorem c2_unset_unconfirmed_accepts_only_init (m : Match) (s : String)
    (h1 : m.online_state = "") (h2 : m.confirmed = none) :
    m.change_state s =
      if s = STATE_INIT then
        ChangeStateResult.ok { m with online_state := STATE_INIT }
          (mkStateEvent { m with online_state := STATE_INIT } TYPE_START 0 0)
      else ChangeStateResult.rejected m := by
  rw [change_state_unset m s h1]
  by_cases hs : s = STATE_INIT
  · subst hs
    have hcond : (stateIsKnown STATE_INIT &&
        pyInStr STATE_INIT (defaultStateFor m.confirmed)) = true := by
      rw [h2]
      decide
    simp [hcond]
  · rw [if_neg hs]
    by_cases hk : stateIsKnown s = true
    · have hp : pyInStr s (defaultStateFor m.confirmed) = false := by
        rw [h2]
        exact known_not_substr_init s hk hs
      simp [hk, hp]
    · rw [Bool.not_eq_true] at hk
      simp [hk]

/-- C2 witness: the amended characterization at a concrete unset,
unconfirmed match with the requested target pause. -/
theorem c2_witness :
    freshMatch.online_state = "" ∧ freshMatch.confirmed = none ∧
    freshMatch.change_state STATE_HALF_PAUSE =
      (if STATE_HALF_PAUSE = STATE_INIT then
        ChangeStateResult.ok { freshMatch with online_state := STATE_INIT }
          (mkStateEvent { freshMatch with online_state := STATE_INIT } TYPE_START 0 0)
      else ChangeStateResult.rejected freshMatch) :=
  ⟨rfl, rfl, c2_unset_unconfirmed_accepts_only_init freshMatch STATE_HALF_PAUSE rfl rfl⟩

/-- C3 counterexample: a confirmed match with empty online_state does not
reject every target: requesting end is accepted, persists
online_state = end and creates a (start,0,0) event. -/
theorem c3_counterexample :
    confirmedMatch.online_state = "" ∧ confirmedMatch.confirmed.isSome = true ∧
    confirmedMatch.change_state STATE_END =
      ChangeStateResult.ok endConfirmedMatch
        (mkStateEvent endConfirmedMatch TYPE_START 0 0) :=
  ⟨rfl, rfl, by decide⟩

/-- C3 (amended): for every match whose online_state is empty and whose
confirmation timestamp is present, change_state accepts exactly one
requested target, end (the derived default state itself, by the same
substring-membership fallback), persisting online_state = end and creating
a (start,0,0) kickoff event keyed off the empty previous state; every
other requested target is rejected without mutation. -/
theorem c3_unset_confirmed_accepts_only_end (m : Match) (s : String)
    (h1 : m.online_state = "") (h2 : m.confirmed.isSome = true) :
    m.change_state s =
      if s = STATE_END then
        ChangeStateResult.ok { m with online_state := STATE_END }
          (mkStateEvent { m with online_state := STATE_END } TYPE_START 0 0)
      else ChangeStateResult.rejected m := by
  rw [change_state_unset m s h1]
  have hd : defaultStateFor m.confirmed = STATE_END := by
    unfold defaultStateFor
    rw [h2]
    rfl
  by_cases hs : s = STATE_END
  · subst hs
    have hcond : (stateIsKnown STATE_END &&
        pyInStr STATE_END (defaultStateFor m.confirmed)) = true := by
      rw [hd]
      decide
    simp [hcond]
  · rw [if_neg hs]
    by_cases hk : stateIsKnown s = true
    · have hp : pyInStr s (defaultStateFor m.confirmed) = false := by
        rw [hd]
        exact known_not_substr_end s hk hs
      simp [hk, hp]
    · rw [Bool.not_eq_true] at hk
      simp [hk]

/-- C3 witness: the amended characterization at a concrete unset, confirmed
match with the requested target init. -/
theorem c3_witness :
    confirmedMatch.online_state = "" ∧ confirmedMatch.confirmed.isSome = true ∧
    confirmedMatch.change_state STATE_INIT =
      (if STATE_INIT = STATE_END then
        ChangeStateResult.ok { confirmedMatch with online_state := STATE_END }
          (mkStateEvent { confirmedMatch with online_state := STATE_END } TYPE_START 0 0)
      else ChangeStateResult.rejected confirmedMatch) :=
  ⟨rfl, rfl, c3_unset_confirmed_accepts_only_end confirmedMatch STATE_INIT rfl rfl⟩

/-- C4: a rejected change_state call, whether the target is not one of the
five recognized states or the transition test fails, returns the rejection
signal (no event, no exception) carrying the match record unchanged. -/
theorem c4_rejection_no_mutation (m : Match) (s : String)
    (h : stateIsKnown s = false ∨ transitionAllowed m s = false) :
    m.change_state s = ChangeStateResult.rejected m := by
  rcases h with h | h
  · simp [Match.change_state, h]
  · by_cases hk : stateIsKnown s = true
    · simp [Match.change_state, hk, h]
    · rw [Bool.not_eq_true] at hk
      simp [Match.change_state, hk]

/-- C4 witness: rejection of an unrecognized target at a concrete match. -/
theorem c4_witness :
    stateIsKnown "bogus" = false ∧
    freshMatch.change_state "bogus" = ChangeStateResult.rejected freshMatch :=
  ⟨by decide, c4_rejection_no_mutation freshMatch "bogus" (Or.inl (by decide))⟩

/-- C5: if a call passes both validation checks while the stored previous
state is none of the recognized predecessors (empty, init, half_first,
pause, half_second), change_state ends in the RuntimeError fault instead of
creating an event (the online_state write having already happened), and
this situation forces the stored online_state to lie outside the
transition table, so the fault is unreachable from any state validated
through the table. -/
theorem c5_fault_on_corrupt_state (m : Match) (s : String)
    (hk : stateIsKnown s = true) (ha : transitionAllowed m s = true)
    (h0 : m.online_state ≠ "") (h1 : m.online_state ≠ STATE_INIT)
    (h2 : m.online_state ≠ STATE_HALF_FIRST) (h3 : m.online_state ≠ STATE_HALF_PAUSE)
    (h4 : m.online_state ≠ STATE_HALF_SECOND) :
    m.change_state s = ChangeStateResult.fault { m with online_state := s } ∧
    STATES.lookup m.online_state = none := by
  have h5 : m.online_state ≠ STATE_END := by
    intro he
    have hfalse : transitionAllowed m s = false := by
      unfold transitionAllowed
      rw [he]
      rfl
    rw [hfalse] at ha
    simp at ha
  refine ⟨?_, lookup_STATES_of_ne _ h1 h2 h3 h4 h5⟩
  simp [Match.change_state, hk, ha, h0, h1, h2, h3, h4]

/-- C5 witness: the fault at a concrete match whose stored online_state is
a corrupted value outside the table, with the requested target init. -/
theorem c5_witness :
    corruptMatch.change_state STATE_INIT =
      ChangeStateResult.fault { corruptMatch with online_state := STATE_INIT } ∧
    STATES.lookup corruptMatch.online_state = none :=
  c5_fault_on_corrupt_state corruptMatch STATE_INIT (by decide) (by decide)
    (by decide) (by decide) (by decide) (by decide) (by decide)

/-- C6 counterexample: an extra field colliding with the fixed snapshot key
id does not take precedence; the dict construction raises TypeError. -/
theorem c6_counterexample :
    freshMatch.serialize [("id", Value.int 99)] =
      Except.error "TypeError: got multiple values for keyword argument" := by
  rfl

/-- C6 (amended): extra caller-supplied fields whose keys are disjoint from
the fixed snapshot keys are merged in, so the snapshot carries every fixed
key and every extra entry; a key collision with a fixed snapshot key
instead raises a duplicate-keyword TypeError (see the counterexample). -/
theorem c6_merge_disjoint_extras (m : Match) (kw : List (String × Value))
    (h : ∀ kv ∈ kw, kv.1 ∉ matchSnapshotKeys) :
    ∃ d, m.serialize kw = Except.ok d ∧
      (∀ k ∈ matchSnapshotKeys, k ∈ d.map Prod.fst) ∧
      (∀ kv ∈ kw, kv ∈ d) := by
  have hkeys : m.fixedSnapshot.map Prod.fst = matchSnapshotKeys := rfl
  refine ⟨m.fixedSnapshot ++ kw, ?_, ?_, ?_⟩
  · have hany : (kw.any fun kv => (m.fixedSnapshot.map Prod.fst).contains kv.1) = false := by
      rw [List.any_eq_false]
      intro kv hkv
      rw [hkeys]
      simpa using h kv hkv
    unfold Match.serialize
    rw [hany]
    simp
  · intro k hk
    rw [List.map_append, hkeys]
    exact List.mem_append_left _ hk
  · intro kv hkv
    exact List.mem_append_right _ hkv

/-- C6 witness: the disjoint merge at a concrete match and extra field. -/
theorem c6_witness :
    ∃ d, freshMatch.serialize [("extra_note", Value.str "x")] = Except.ok d ∧
      (∀ k ∈ matchSnapshotKeys, k ∈ d.map Prod.fst) ∧
      (∀ kv ∈ [("extra_note", Value.str "x")], kv ∈ d) :=
  c6_merge_disjoint_extras freshMatch [("extra_note", Value.str "x")] (by decide)

/-- C7: the serialized snapshot's state key resolves to online_state when
it is non-empty, otherwise to end when the match has a confirmation
timestamp and to init when it does not. -/
theorem c7_state_resolution (m : Match) :
    ∃ d, m.serialize [] = Except.ok d ∧
      d.lookup "state" = some (Value.str
        (if m.online_state ≠ "" then m.online_state
         else if m.confirmed.isSome then STATE_END else STATE_INIT)) := by
  refine ⟨m.fixedSnapshot, ?_, ?_⟩
  · simp [Match.serialize]
  · simp only [Match.fixedSnapshot, List.lookup]
    by_cases hcase : m.online_state = "" <;> simp [hcase, pyStrOr]

/-- The serialized event's team_index entry is the tuple-index lookup of
the event's team in the owning match's (home, away) pair. -/
theorem serialize_team_index (e : MatchEvent) :
    e.serialize.lookup "team_index" =
      some (Value.int (tupleIndexTeam e.match_.teams e.team_info)) := rfl

/-- C8: the event snapshot's team_index is 0 when the event's team is the
match's home team, 1 when it is the away team, and -1 when the team
reference is unset or matches neither side; the lookup is total (a present
key with an integer value), never an exception. -/
theorem c8_team_index (e : MatchEvent)
    (hne : e.match_.home_team_info.id ≠ e.match_.away_team_info.id) :
    (e.team_info = none →
      e.serialize.lookup "team_index" = some (Value.int (-1))) ∧
    (∀ t : TeamInfo, e.team_info = some t →
      (t.id = e.match_.home_team_info.id →
        e.serialize.lookup "team_index" = some (Value.int 0)) ∧
      (t.id = e.match_.away_team_info.id →
        e.serialize.lookup "team_index" = some (Value.int 1)) ∧
      (t.id ≠ e.match_.home_team_info.id → t.id ≠ e.match_.away_team_info.id →
        e.serialize.lookup "team_index" = some (Value.int (-1)))) := by
  rw [serialize_team_index]
  constructor
  · intro h0
    rw [h0]
    rfl
  · intro t ht
    rw [ht]
    refine ⟨?_, ?_, ?_⟩
    · intro hh
      simp only [tupleIndexTeam, Match.teams]
      rw [if_pos hh]
    · intro haw
      have hh : t.id ≠ e.match_.home_team_info.id := fun hc => hne (hc.symm.trans haw)
      simp only [tupleIndexTeam, Match.teams]
      rw [if_neg hh, if_pos haw]
    · intro hh haw
      simp only [tupleIndexTeam, Match.teams]
      rw [if_neg hh, if_neg haw]

/-- C8 witness: a concrete goal event whose team is the away team of its
match serializes team_index as 1. -/
theorem c8_witness :
    sampleAwayEvent.match_.home_team_info.id ≠ sampleAwayEvent.match_.away_team_info.id ∧
    sampleAwayEvent.serialize.lookup "team_index" = some (Value.int 1) :=
  ⟨by decide, ((c8_team_index sampleAwayEvent (by decide)).2 sampleAway rfl).2.1 rfl⟩

/-- C9: an accepted change_state call persists online_state as the
requested state and leaves every other field of the match record (identity,
term, category and team references, scores, confirmation fields, half-start
timestamps, video reference) unchanged. -/
theorem c9_accepted_persists_only_online_state (m : Match) (s : String)
    (m2 : Match) (e : MatchEvent)
    (h : m.change_state s = ChangeStateResult.ok m2 e) :
    m2.online_state = s ∧ m2.id = m.id ∧ m2.match_term = m.match_term ∧
    m2.category = m.category ∧ m2.home_team_info = m.home_team_info ∧
    m2.away_team_info = m.away_team_info ∧ m2.score_home = m.score_home ∧
    m2.score_away = m.score_away ∧ m2.confirmed = m.confirmed ∧
    m2.confirmed_as = m.confirmed_as ∧ m2.first_half_start = m.first_half_start ∧
    m2.second_half_start = m.second_half_start ∧
    m2.facebook_video_id = m.facebook_video_id := by
  unfold Match.change_state at h
  split at h
  · exact ChangeStateResult.noConfusion h
  · split at h
    · exact ChangeStateResult.noConfusion h
    · split at h
      · obtain ⟨hm, he⟩ := ChangeStateResult.ok.inj h
        subst hm
        exact ⟨rfl, rfl, rfl, rfl, rfl, rfl, rfl, rfl, rfl, rfl, rfl, rfl, rfl⟩
      · split at h
        · obtain ⟨hm, he⟩ := ChangeStateResult.ok.inj h
          subst hm
          exact ⟨rfl, rfl, rfl, rfl, rfl, rfl, rfl, rfl, rfl, rfl, rfl, rfl, rfl⟩
        · split at h
          · obtain ⟨hm, he⟩ := ChangeStateResult.ok.inj h
            subst hm
            exact ⟨rfl, rfl, rfl, rfl, rfl, rfl, rfl, rfl, rfl, rfl, rfl, rfl, rfl⟩
          · split at h
            · obtain ⟨hm, he⟩ := ChangeStateResult.ok.inj h
              subst hm
              exact ⟨rfl, rfl, rfl, rfl, rfl, rfl, rfl, rfl, rfl, rfl, rfl, rfl, rfl⟩
            · exact ChangeStateResult.noConfusion h

/-- C9 witness: the frame condition at a concrete accepted transition from
the init state to half_first. -/
theorem c9_witness :
    halfFirstMatch.online_state = STATE_HALF_FIRST ∧
    halfFirstMatch.id = initMatch.id ∧
    halfFirstMatch.match_term = initMatch.match_term ∧
    halfFirstMatch.category = initMatch.category ∧
    halfFirstMatch.home_team_info = initMatch.home_team_info ∧
    halfFirstMatch.away_team_info = initMatch.away_team_info ∧
    halfFirstMatch.score_home = initMatch.score_home ∧
    halfFirstMatch.score_away = initMatch.score_away ∧
    halfFirstMatch.confirmed = initMatch.confirmed ∧
    halfFirstMatch.confirmed_as = initMatch.confirmed_as ∧
    halfFirstMatch.first_half_start = initMatch.first_half_start ∧
    halfFirstMatch.second_half_start = initMatch.second_half_start ∧
    halfFirstMatch.facebook_video_id = initMatch.facebook_video_id :=
  c9_accepted_persists_only_online_state initMatch STATE_HALF_FIRST
    halfFirstMatch (mkStateEvent halfFirstMatch TYPE_START 0 0) (by decide)

/-- C10: for every match with empty online_state and no confirmation
timestamp, requesting the init state itself is accepted: it persists
online_state = init and creates a start event with half_index 0 and
time_offset 0, because the validation fallback for an unset state tests
membership of the requested state in the single default-state string. -/
theorem c10_unset_accepts_init (m : Match)
    (h1 : m.online_state = "") (h2 : m.confirmed = none) :
    m.change_state STATE_INIT =
      ChangeStateResult.ok { m with online_state := STATE_INIT }
        (mkStateEvent { m with online_state := STATE_INIT } TYPE_START 0 0) := by
  have ha : transitionAllowed m STATE_INIT = true := by
    unfold transitionAllowed
    rw [h1, h2]
    rfl
  have hk : stateIsKnown STATE_INIT = true := rfl
  simp [Match.change_state, hk, ha, h1]

/-- C10 witness: accepting init at a concrete unset, unconfirmed match. -/
theorem c10_witness :
    freshMatch.online_state = "" ∧ freshMatch.confirmed = none ∧
    freshMatch.change_state STATE_INIT =
      ChangeStateResult.ok initMatch (mkStateEvent initMatch TYPE_START 0 0) :=
  ⟨rfl, rfl, c10_unset_accepts_init freshMatch rfl rfl⟩

end Minicup
